import Mathlib

/-!
A shallow embedding of the Filo rule-driven file-organization engine
(src/src-tauri/src: engine.rs, filters.rs, ruleset.rs, commands.rs).

Filesystem calls (stat, rename, copy, remove, mkdir, exists), the regex and
glob engines and the RFC-3339 parser are modelled as oracle parameters: each
embedded function takes an environment record holding the outcome of every
such call, and the theorems quantify over all environments.  Pure Rust code
(string scanning, template resolution, extension extraction, status
derivation, result accounting) is translated directly.
-/

namespace Filo

/-- The `std::io::ErrorKind` values distinguished by the engine
(`classify_io_error` and `is_cross_device_error` in engine.rs); `other`
stands for every further kind. -/
inductive IOErrorKind where
  | notFound
  | permissionDenied
  | storageFull
  | crossesDevices
  | other
deriving DecidableEq, Repr

/-- A `std::io::Error`: its kind plus its `Display` rendering (`msg`). -/
structure IOError where
  kind : IOErrorKind
  msg : String
deriving DecidableEq, Repr

/-- ruleset.rs `Action`. -/
inductive Action where
  | move
  | copy
deriving DecidableEq, Repr

/-- ruleset.rs `MatchType`. -/
inductive MatchType where
  | glob
  | regex
deriving DecidableEq, Repr

/-- ruleset.rs `FilenameFilter`. -/
structure FilenameFilter where
  pattern : String
  match_type : MatchType
deriving DecidableEq, Repr

/-- ruleset.rs `DateTimeRange`; the Rust field `end` is a Lean keyword and is
rendered `end_`. -/
structure DateTimeRange where
  start : Option String
  end_ : Option String
deriving DecidableEq, Repr

/-- ruleset.rs `Filters`. -/
structure Filters where
  extensions : Option (List String)
  filename : Option FilenameFilter
  created_at : Option DateTimeRange
  modified_at : Option DateTimeRange
deriving DecidableEq, Repr

/-- ruleset.rs `Ruleset`. -/
structure Ruleset where
  id : String
  name : String
  enabled : Bool
  source_dir : String
  destination_dir : String
  action : Action
  overwrite : Bool
  filters : Filters
deriving DecidableEq, Repr

/-- engine.rs `is_cross_device_error`. -/
def is_cross_device_error (e : IOError) : Bool :=
  e.kind == IOErrorKind.crossesDevices

/-- engine.rs `classify_io_error`: map the error kind to a human prefix and
append the raw message (the Rust `format!` with `{}` on the error). -/
def classify_io_error (e : IOError) : String :=
  match e.kind with
  | .permissionDenied => "Permission denied: " ++ e.msg
  | .storageFull => "Disk full: " ++ e.msg
  | .notFound => "File not found: " ++ e.msg
  | .crossesDevices => "Cross-device operation failed: " ++ e.msg
  | .other => "Operation failed: " ++ e.msg

/-- The contents of the two paths a single transfer touches: `none` means no
file exists there, `some n` a file of `n` bytes. -/
structure FileState where
  src : Option Nat
  dest : Option Nat
deriving DecidableEq, Repr

/-- Oracle outcomes of the filesystem calls one `move_file` /
`copy_and_verify` invocation can make: the result of `fs::rename`, of the
platform copy (`fs::copy`, or CopyFile2 plus a re-stat on Windows — either
way a byte count or an error), the partial file a failed platform copy leaves
at `dest`, the result of the best-effort `fs::remove_file(dest)` on the
failure paths of `copy_and_verify`, and the result of the
`fs::remove_file(src)` in the cross-device fallback. -/
structure TransferEnv where
  rename_result : Option IOError
  copy_result : Except IOError Nat
  failed_copy_dest : Option Nat
  remove_dest_result : Option IOError
  remove_src_result : Option IOError
deriving Repr

/-- engine.rs `platform_copy`: on success the destination holds the copied
bytes; on failure whatever partial file the oracle says was left behind. -/
def platform_copy (t : TransferEnv) (st : FileState) : Except IOError Nat × FileState :=
  match t.copy_result with
  | .ok n => (.ok n, { st with dest := some n })
  | .error e => (.error e, { st with dest := t.failed_copy_dest })

/-- The `io::Error::new(Other, format!("Copy incomplete: …"))` built by
`copy_and_verify` when the byte count differs from the expected size. -/
def incomplete_copy_error (expected copied : Nat) : IOError :=
  { kind := .other,
    msg := "Copy incomplete: expected " ++ toString expected ++ " bytes, got "
      ++ toString copied ++ " bytes" }

/-- The best-effort `let _ = fs::remove_file(dest)` of `copy_and_verify`:
the returned result is ignored, but only a removal the filesystem actually
performs (oracle `remove_dest_result = none`) clears the destination; a
failing removal leaves whatever is at `dest`. -/
def remove_dest (t : TransferEnv) (st : FileState) : FileState :=
  match t.remove_dest_result with
  | none => { st with dest := none }
  | some _ => st

/-- engine.rs `copy_and_verify`: platform copy, then on either failure —
copy error, or byte count different from `expected_size` — a best-effort
removal of `dest` before the error is returned. -/
def copy_and_verify (t : TransferEnv) (st : FileState) (expected_size : Nat) :
    Except IOError Unit × FileState :=
  match platform_copy t st with
  | (.error e, st1) => (.error e, remove_dest t st1)
  | (.ok copied, st1) =>
    if copied ≠ expected_size then
      (.error (incomplete_copy_error expected_size copied), remove_dest t st1)
    else (.ok (), st1)

/-- engine.rs `move_file`: rename, then — only on a cross-device error —
`copy_and_verify` followed by `fs::remove_file(src)`.  The third component
records whether the copy fallback ran. -/
def move_file (t : TransferEnv) (st : FileState) (file_size : Nat) :
    Except IOError Unit × FileState × Bool :=
  match t.rename_result with
  | none => (.ok (), { src := none, dest := st.src }, false)
  | some e =>
    if is_cross_device_error e then
      match copy_and_verify t st file_size with
      | (.error e2, st1) => (.error e2, st1, true)
      | (.ok _, st1) =>
        match t.remove_src_result with
        | none => (.ok (), { st1 with src := none }, true)
        | some e3 => (.error e3, st1, true)
    else (.error e, st, false)

/-- The character scan shared, with identical bodies, by engine.rs
`has_template_vars` and ruleset.rs `has_template_vars`: on the first `{`
the inner loop consumes the rest of the iterator looking for a `}`. -/
def hasTemplateVarsGo : List Char → Bool
  | [] => false
  | c :: rest => if c = '{' then rest.contains '}' else hasTemplateVarsGo rest

/-- engine.rs / ruleset.rs `has_template_vars`. -/
def has_template_vars (s : String) : Bool :=
  hasTemplateVarsGo s.toList

/-- The per-character replacement of engine.rs `sanitize_path_component`. -/
def sanitizeChar (c : Char) : Char :=
  if c = '/' ∨ c = '\\' ∨ c = ':' ∨ c = '*' ∨ c = '?' ∨ c = '\"' ∨ c = '<' ∨ c = '>' ∨ c = '|'
  then '_' else c

/-- engine.rs `sanitize_path_component`: map `sanitizeChar` over the
characters. -/
def sanitize_path_component (s : String) : String :=
  String.mk (s.toList.map sanitizeChar)

/-- A piece of a destination template as the regex `\x7b([^\x7d]+)\x7d`
(engine.rs `get_template_var_re`) decomposes it: literal text, or one
matched variable token carrying its name. -/
inductive TemplateTok where
  | lit : List Char → TemplateTok
  | var : String → TemplateTok
deriving DecidableEq, Repr

/-- Whether the template-variable regex matches at the very start of the
input: a `{`, one or more characters other than `}` (the greedy `[^\x7d]+`),
then `}`.  Returns the captured name and the remaining input. -/
def matchVarAt : List Char → Option (String × List Char)
  | '{' :: rest =>
    match rest.span (fun c => c != '}') with
    | ([], _) => none
    | (nm, rest1) =>
      match rest1 with
      | '}' :: tail => some (String.mk nm, tail)
      | _ => none
  | _ => none

/-- Leftmost, non-overlapping decomposition of the input into template
tokens, as `Regex::replace_all` walks it.  The fuel argument (always the
input length) only keeps the recursion structural. -/
def scanTemplateFuel : Nat → List Char → List TemplateTok
  | 0, _ => []
  | _ + 1, [] => []
  | fuel + 1, c :: cs =>
    match matchVarAt (c :: cs) with
    | some (nm, rest) => .var nm :: scanTemplateFuel fuel rest
    | none => .lit [c] :: scanTemplateFuel fuel cs

/-- Decompose a template into literal pieces and `\x7bname\x7d` tokens. -/
def scanTemplate (l : List Char) : List TemplateTok :=
  scanTemplateFuel l.length l

/-- Concatenation of string pieces, as `replace_all` assembles its output. -/
def concatStrings : List String → String
  | [] => ""
  | s :: rest => s ++ concatStrings rest

/-- The error message `resolve_destination_template` records for a variable
token, or `none` when its capture exists and is non-empty (the two `Err`
conditions of engine.rs). -/
def capture_error (captures : String → Option String) (name : String) : Option String :=
  match captures name with
  | some v =>
    if v = "" then some ("Template variable '" ++ name ++ "' resolved to empty string")
    else none
  | none => some ("Template variable '" ++ name ++ "' not found in regex capture groups")

/-- What the replacement closure of `resolve_destination_template` returns
for one token: literals pass through, a resolvable variable becomes its
sanitized value, a failing one becomes the empty string (the `String::new()`
branches; the surrounding error then discards the result). -/
def substTok (captures : String → Option String) : TemplateTok → String
  | .lit cs => String.mk cs
  | .var name =>
    match captures name with
    | some v => if v = "" then "" else sanitize_path_component v
    | none => ""

/-- The `error.get_or_insert_with` accumulation of
`resolve_destination_template`: the first failing variable in scan order
determines the message. -/
def firstTemplateError (captures : String → Option String) :
    List TemplateTok → Option String
  | [] => none
  | .lit _ :: ts => firstTemplateError captures ts
  | .var nm :: ts =>
    match capture_error captures nm with
    | some e => some e
    | none => firstTemplateError captures ts

/-- engine.rs `resolve_destination_template`: `replace_all` over the
template with the substitution closure, then the recorded first error wins
over the substituted result.  The capture map is the lookup function of the
`HashMap<String, String>`. -/
def resolve_destination_template (template : String) (captures : String → Option String) :
    Except String String :=
  let toks := scanTemplate template.toList
  match firstTemplateError captures toks with
  | some e => .error e
  | none => .ok (concatStrings (toks.map (substTok captures)))

/-- The variable names of a token list, in scan order. -/
def varNamesOf (ts : List TemplateTok) : List String :=
  ts.filterMap (fun t => match t with | .var nm => some nm | .lit _ => none)

/-- The variable names the template regex finds in a template, in scan
order. -/
def templateVarNames (template : String) : List String :=
  varNamesOf (scanTemplate template.toList)

/-- Rust `str::to_lowercase`, restricted to the ASCII case mapping the
claims exercise. -/
def lowerString (s : String) : String :=
  String.mk (s.toList.map Char.toLower)

/-- Rust `str::trim().is_empty()`: true exactly when every character of the
string is whitespace. -/
def trim_is_empty (s : String) : Bool :=
  s.toList.all Char.isWhitespace

/-- Index of the last occurrence of `c` in the list, if any. -/
def lastIndexOf (c : Char) : List Char → Option Nat
  | [] => none
  | x :: xs =>
    match lastIndexOf c xs with
    | some i => some (i + 1)
    | none => if x = c then some 0 else none

/-- Rust `Path::extension` applied to a file name: `none` when the name is
`..`, has no dot, or its only dot is the leading character; otherwise the
portion after the last dot (possibly empty, as for `"foo."`). -/
def extension (name : String) : Option String :=
  if name = ".." then none
  else
    match lastIndexOf '.' name.toList with
    | none => none
    | some 0 => none
    | some (i + 1) => some (String.mk (name.toList.drop (i + 2)))

/-- filters.rs `match_extensions`, on the file name of the path: lowercase
the extension, prefix a dot, and compare against each configured entry
lowercased. -/
def match_extensions (filename : String) (extensions : List String) : Bool :=
  match (extension filename).map (fun e => "." ++ lowerString e) with
  | some ext => extensions.any (fun e => lowerString e == ext)
  | none => false

/-- Timestamps and size of `fs::Metadata`: `len`, and `created()` /
`modified()` as optional local timestamps (an `Err` from the platform is
`none`). -/
structure Metadata where
  len : Nat
  created : Option Int
  modified : Option Int
deriving DecidableEq, Repr

/-- Oracles for the external engines filters.rs calls: chrono RFC-3339
parsing (`none` = parse error), and glob / regex filename matching
(`none` = the pattern failed to compile). -/
structure MatchOracle where
  parse_rfc3339 : String → Option Int
  glob_matches : String → String → Option Bool
  regex_is_match : String → String → Option Bool

/-- filters.rs `match_filename` on the file name: a malformed pattern is a
non-match. -/
def match_filename (o : MatchOracle) (filename : String) (pattern : String)
    (mt : MatchType) : Bool :=
  match mt with
  | .glob =>
    match o.glob_matches pattern filename with
    | some b => b
    | none => false
  | .regex =>
    match o.regex_is_match pattern filename with
    | some b => b
    | none => false

/-- filters.rs `match_datetime_range`: each set bound must parse and must
not exclude the value (`value < start` or `end < value` rejects); a parse
failure rejects. -/
def match_datetime_range (o : MatchOracle) (value : Int)
    (start end_ : Option String) : Bool :=
  (match start with
   | some s =>
     match o.parse_rfc3339 s with
     | some start_dt => decide (start_dt ≤ value)
     | none => false
   | none => true) &&
  (match end_ with
   | some s =>
     match o.parse_rfc3339 s with
     | some end_dt => decide (value ≤ end_dt)
     | none => false
   | none => true)

/-- filters.rs `matches_filters`: short-circuit AND of the enabled
sub-filters; a time filter whose metadata timestamp is unavailable
rejects. -/
def matches_filters (o : MatchOracle) (filename : String) (m : Metadata)
    (f : Filters) : Bool :=
  (match f.extensions with
   | some exts => match_extensions filename exts
   | none => true) &&
  (match f.filename with
   | some ff => match_filename o filename ff.pattern ff.match_type
   | none => true) &&
  (match f.created_at with
   | some r =>
     match m.created with
     | some t => match_datetime_range o t r.start r.end_
     | none => false
   | none => true) &&
  (match f.modified_at with
   | some r =>
     match m.modified with
     | some t => match_datetime_range o t r.start r.end_
     | none => false
   | none => true)

/-- engine.rs `ExecutionStatus`. -/
inductive ExecutionStatus where
  | Completed
  | PartialFailure
  | Failed
deriving DecidableEq, Repr

/-- engine.rs `FileResult`; paths are strings. -/
structure FileResult where
  filename : String
  source_path : String
  destination_path : Option String
  reason : Option String
deriving DecidableEq, Repr

/-- engine.rs `ExecutionResult`. -/
structure ExecutionResult where
  ruleset_id : String
  ruleset_name : String
  action : Action
  status : ExecutionStatus
  succeeded : List FileResult
  skipped : List FileResult
  errors : List FileResult
deriving Repr

/-- engine.rs `ExecutionResult::determine_status`. -/
def determine_status (succeeded errors : List FileResult) : ExecutionStatus :=
  if errors.isEmpty then .Completed
  else if succeeded.isEmpty then .Failed
  else .PartialFailure

/-- One entry of the `fs::read_dir` listing after `entries.flatten()`:
its file name, the result of `path.is_dir()`, and the result of
`fs::metadata`. -/
structure DirEntry where
  filename : String
  is_dir : Bool
  metadata : Except IOError Metadata

/-- engine.rs `PendingFile`. -/
structure PendingFile where
  path : String
  filename : String
  file_size : Nat
deriving DecidableEq, Repr

/-- One `on_progress(filename, current, total, bytes_per_second)` call;
the f64 rate is modelled by an exact rational. -/
structure ProgressCall where
  filename : String
  current : Nat
  total : Nat
  bps : ℚ
deriving Repr

/-- Oracle outcomes for every external call `execute_ruleset` makes, in
order: `source_dir.exists()`, `fs::create_dir_all` per directory,
`fs::read_dir`, the filter oracles, whether `Regex::new` on the filename
pattern succeeds, the named captures `extract_named_captures` returns per
file name, `dest_path.exists()` and the transfer outcomes per loop index,
the cancellation flag read after each file, and the two clocks of the
progress throttle. -/
structure ExecEnv where
  source_exists : Bool
  create_dir_all : String → Except IOError Unit
  read_dir : Except IOError (List DirEntry)
  oracle : MatchOracle
  regex_compiles : String → Bool
  captures : String → String → Option String
  path_exists : Nat → String → Bool
  transfer : Nat → TransferEnv
  fstate : Nat → FileState
  cancel : Nat → Bool
  elapsed_secs : Nat → ℚ
  now_ms : Nat → Nat

/-- `PathBuf::join` on the path strings of the model. -/
def joinPath (dir name : String) : String :=
  dir ++ "/" ++ name

/-- The error entry recorded when `fs::metadata` fails during
enumeration. -/
def metadata_error_result (source_dir : String) (e : DirEntry) (err : IOError) : FileResult :=
  { filename := e.filename
    source_path := joinPath source_dir e.filename
    destination_path := none
    reason := some ("Failed to read metadata: " ++ err.msg) }

/-- The enumeration phase of `execute_ruleset`: skip directories, record a
stat failure as an error entry and drop the file, keep filter-passing files
as pending entries.  Returns (error entries, pending files), each in listing
order. -/
def enumerate_files (o : MatchOracle) (source_dir : String) (f : Filters) :
    List DirEntry → List FileResult × List PendingFile
  | [] => ([], [])
  | e :: es =>
    let rest := enumerate_files o source_dir f es
    if e.is_dir then rest
    else
      match e.metadata with
      | .error err => (metadata_error_result source_dir e err :: rest.1, rest.2)
      | .ok m =>
        if matches_filters o e.filename m f then
          (rest.1,
            { path := joinPath source_dir e.filename
              filename := e.filename
              file_size := m.len } :: rest.2)
        else rest

/-- The mutable state of the processing loop of `execute_ruleset`. -/
structure LoopState where
  succeeded : List FileResult
  skipped : List FileResult
  errors : List FileResult
  bytes_transferred : Nat
  last_progress_emit : Option Nat
  created_dirs : List String
  progress : List ProgressCall

/-- Append one entry to `skipped`. -/
def LoopState.pushSkip (st : LoopState) (p : PendingFile) (dest : Option String)
    (reason : String) : LoopState :=
  { st with skipped := st.skipped ++
      [{ filename := p.filename, source_path := p.path,
         destination_path := dest, reason := some reason }] }

/-- Append one entry to `errors`. -/
def LoopState.pushErr (st : LoopState) (p : PendingFile) (dest : Option String)
    (reason : String) : LoopState :=
  { st with errors := st.errors ++
      [{ filename := p.filename, source_path := p.path,
         destination_path := dest, reason := some reason }] }

/-- Append one entry to `succeeded` and account the transferred bytes. -/
def LoopState.pushSucc (st : LoopState) (p : PendingFile) (dest : String) : LoopState :=
  { st with
    bytes_transferred := st.bytes_transferred + p.file_size
    succeeded := st.succeeded ++
      [{ filename := p.filename, source_path := p.path,
         destination_path := some dest, reason := none }] }

/-- The `Execute action` step: `move_file` for a move, `copy_and_verify`
for a copy, both with the enumerated size. -/
def action_result (rs : Ruleset) (env : ExecEnv) (i : Nat) (p : PendingFile) :
    Except IOError Unit :=
  match rs.action with
  | .move => (move_file (env.transfer i) (env.fstate i) p.file_size).1
  | .copy => (copy_and_verify (env.transfer i) (env.fstate i) p.file_size).1

/-- Collision check and action execution of the per-file pipeline. -/
def stepTransfer (rs : Ruleset) (env : ExecEnv) (i : Nat) (p : PendingFile)
    (st : LoopState) (resolved_dir : String) : LoopState :=
  let dest_path := joinPath resolved_dir p.filename
  if env.path_exists i dest_path && !rs.overwrite then
    st.pushSkip p (some dest_path) "File with same name exists at destination"
  else
    match action_result rs env i p with
    | .ok _ => st.pushSucc p dest_path
    | .error e => st.pushErr p (some dest_path) (classify_io_error e)

/-- Directory creation of the per-file pipeline: in template mode, call
`create_dir_all` on first sight of a resolved directory (the `created_dirs`
cache). -/
def stepEnsureDir (rs : Ruleset) (env : ExecEnv) (ut : Bool) (i : Nat)
    (p : PendingFile) (st : LoopState) (resolved_dir : String) : LoopState :=
  if ut && !st.created_dirs.contains resolved_dir then
    match env.create_dir_all resolved_dir with
    | .error e =>
      st.pushErr p none ("Failed to create destination directory: " ++ e.msg)
    | .ok _ =>
      stepTransfer rs env i p
        { st with created_dirs := st.created_dirs ++ [resolved_dir] } resolved_dir
  else stepTransfer rs env i p st resolved_dir

/-- The labelled `process:` block of `execute_ruleset`: resolve the
destination directory (template mode goes through captures and the
template resolver; a resolver error skips the file), then directory
creation, collision check and the action. -/
def processOne (rs : Ruleset) (env : ExecEnv) (ut rc : Bool) (i : Nat)
    (p : PendingFile) (st : LoopState) : LoopState :=
  if ut then
    let caps := if rc then env.captures p.filename else fun _ => none
    match resolve_destination_template rs.destination_dir caps with
    | .error reason => st.pushSkip p none reason
    | .ok dir => stepEnsureDir rs env ut i p st dir
  else stepEnsureDir rs env ut i p st rs.destination_dir

/-- The throttled progress emission at the head of each loop iteration:
first iteration, 100 ms elapsed, or last file. -/
def emitProgress (env : ExecEnv) (total i : Nat) (p : PendingFile)
    (st : LoopState) : LoopState :=
  let elapsed := env.elapsed_secs i
  let bps : ℚ := if 0 < elapsed then (st.bytes_transferred : ℚ) / elapsed else 0
  let now := env.now_ms i
  let should_emit :=
    (match st.last_progress_emit with
     | none => true
     | some t => decide (100 ≤ now - t)) || decide (i + 1 = total)
  if should_emit then
    { st with
      progress := st.progress ++
        [{ filename := p.filename, current := i + 1, total := total, bps := bps }]
      last_progress_emit := some now }
  else st

/-- The `skipped` entry synthesized for each unprocessed file after
cancellation. -/
def cancelled_result (p : PendingFile) : FileResult :=
  { filename := p.filename
    source_path := p.path
    destination_path := none
    reason := some "Cancelled by user" }

/-- The processing loop of `execute_ruleset`: emit progress, run the
per-file pipeline, then test the cancellation flag; when it is set, skip
every remaining pending file and stop. -/
def processLoop (rs : Ruleset) (env : ExecEnv) (ut rc : Bool) (total : Nat) :
    List PendingFile → Nat → LoopState → LoopState
  | [], _, st => st
  | p :: rest, i, st =>
    let st1 := emitProgress env total i p st
    let st2 := processOne rs env ut rc i p st1
    if env.cancel i then
      { st2 with skipped := st2.skipped ++ rest.map cancelled_result }
    else processLoop rs env ut rc total rest (i + 1) st2

/-- The execution result together with the progress calls it emitted. -/
structure ExecOutput where
  result : ExecutionResult
  progress : List ProgressCall

/-- A pre-flight failure: `status = Failed` with a single synthetic error
entry. -/
def preflight_failure (rs : Ruleset) (source_path : String) (reason : String) : ExecOutput :=
  { result :=
      { ruleset_id := rs.id
        ruleset_name := rs.name
        action := rs.action
        status := .Failed
        succeeded := []
        skipped := []
        errors := [{ filename := "", source_path := source_path,
                     destination_path := none, reason := some reason }] }
    progress := [] }

/-- The eager destination creation of the pre-flight: only without template
variables is `create_dir_all(destination_dir)` called. -/
def preflight_dest (rs : Ruleset) (env : ExecEnv) : Except IOError Unit :=
  if has_template_vars rs.destination_dir then .ok ()
  else env.create_dir_all rs.destination_dir

/-- engine.rs `execute_ruleset`: pre-flight checks, enumeration, then the
processing loop; the status derives from the final `succeeded` and
`errors`. -/
def execute_ruleset (rs : Ruleset) (env : ExecEnv) : ExecOutput :=
  if env.source_exists = false then
    preflight_failure rs rs.source_dir "Source directory does not exist"
  else
    match preflight_dest rs env with
    | .error e =>
      preflight_failure rs rs.destination_dir
        ("Failed to create destination directory: " ++ e.msg)
    | .ok _ =>
      match env.read_dir with
      | .error e =>
        preflight_failure rs rs.source_dir
          ("Failed to read source directory: " ++ e.msg)
      | .ok entries =>
        let ut := has_template_vars rs.destination_dir
        let enumd := enumerate_files env.oracle rs.source_dir rs.filters entries
        let total := enumd.2.length
        let rc := ut && (match rs.filters.filename with
                         | some ff => env.regex_compiles ff.pattern
                         | none => false)
        let final := processLoop rs env ut rc total enumd.2 0
          { succeeded := [], skipped := [], errors := enumd.1
            bytes_transferred := 0, last_progress_emit := none
            created_dirs := [], progress := [] }
        { result :=
            { ruleset_id := rs.id
              ruleset_name := rs.name
              action := rs.action
              status := determine_status final.succeeded final.errors
              succeeded := final.succeeded
              skipped := final.skipped
              errors := final.errors }
          progress := final.progress }

/-- Oracle outcomes for the calls `undo_file_move` makes:
`destination_path.exists()`, `source_path.exists()`,
`source_path.parent()` (with the `create_dir_all` outcome),
`fs::metadata(destination_path).map(len)`, and the transfer
environment of the final `move_file`. -/
structure UndoEnv where
  dest_exists : Bool
  src_exists : Bool
  source_parent : Option String
  create_dir_all : String → Except IOError Unit
  dest_metadata : Option Nat
  transfer : TransferEnv
  fstate : FileState

/-- engine.rs `undo_file_move`: destination must exist, source must not;
create the parent of the source, then `move_file(destination, source,
size_of(destination))` with errors classified. -/
def undo_file_move (env : UndoEnv) : Except String Unit :=
  if env.dest_exists = false then .error "File no longer exists at destination"
  else if env.src_exists then .error "File already exists at original location"
  else
    match (match env.source_parent with
           | some parent => env.create_dir_all parent
           | none => .ok ()) with
    | .error e => .error ("Failed to create directory: " ++ e.msg)
    | .ok _ =>
      let file_size := env.dest_metadata.getD 0
      match (move_file env.transfer env.fstate file_size).1 with
      | .ok _ => .ok ()
      | .error e => .error (classify_io_error e)

/-- commands.rs `ExecutionProgressPayload`: the payload the adapter emits on
the `execution-progress` channel. -/
structure ExecutionProgressPayload where
  ruleset_name : String
  filename : String
deriving DecidableEq, Repr

/-- The serde field list of commands.rs `ExecutionProgressPayload`: the
fields every emitted `execution-progress` event carries. -/
def execution_progress_payload_fields : List String :=
  ["ruleset_name", "filename"]

/-- Modelled from the spec: the five fields §6 says a progress event
carries. -/
def spec_progress_event_fields : List String :=
  ["ruleset_name", "filename", "current", "total", "bytes_per_second"]

/-- ruleset.rs `Filters::has_at_least_one`. -/
def Filters.has_at_least_one (f : Filters) : Bool :=
  (match f.extensions with
   | some e => !e.isEmpty
   | none => false) ||
  f.filename.isSome || f.created_at.isSome || f.modified_at.isSome

/-- The validation message for a datetime bound that fails to parse. -/
def invalid_datetime_msg (s : String) : String :=
  "invalid datetime format: '" ++ s ++ "'"

/-- Second half of ruleset.rs `validate_datetime_range`: the `end` bound. -/
def validate_datetime_end (parse : String → Option Int) (r : DateTimeRange) :
    Except String Unit :=
  match r.end_ with
  | some s =>
    match parse s with
    | none => .error (invalid_datetime_msg s)
    | some _ => .ok ()
  | none => .ok ()

/-- ruleset.rs `validate_datetime_range`, with chrono RFC-3339 parsing as
the oracle `parse`. -/
def validate_datetime_range (parse : String → Option Int) (r : DateTimeRange) :
    Except String Unit :=
  match r.start with
  | some s =>
    match parse s with
    | none => .error (invalid_datetime_msg s)
    | some _ => validate_datetime_end parse r
  | none => validate_datetime_end parse r

/-- The `is_regex` condition of ruleset.rs `Ruleset::validate`. -/
def filename_filter_is_regex (f : Filters) : Bool :=
  match f.filename with
  | some ff => ff.match_type == MatchType.regex
  | none => false

/-- The `created_at` datetime validation step of `Ruleset::validate`. -/
def validate_created_at (parse : String → Option Int) (f : Filters) :
    Except String Unit :=
  match f.created_at with
  | some r => validate_datetime_range parse r
  | none => .ok ()

/-- The `modified_at` datetime validation step of `Ruleset::validate`. -/
def validate_modified_at (parse : String → Option Int) (f : Filters) :
    Except String Unit :=
  match f.modified_at with
  | some r => validate_datetime_range parse r
  | none => .ok ()

/-- ruleset.rs `Ruleset::validate`. -/
def Ruleset.validate (parse : String → Option Int) (rs : Ruleset) :
    Except String Unit :=
  if trim_is_empty rs.name then .error "name is required"
  else if trim_is_empty rs.source_dir then .error "source_dir is required"
  else if trim_is_empty rs.destination_dir then .error "destination_dir is required"
  else if !rs.filters.has_at_least_one then .error "at least one filter is required"
  else if has_template_vars rs.destination_dir && !filename_filter_is_regex rs.filters then
    .error "destination_dir contains template variables but filename filter is not regex"
  else
    match validate_created_at parse rs.filters with
    | .error e => .error e
    | .ok _ =>
      match validate_modified_at parse rs.filters with
      | .error e => .error e
      | .ok _ => .ok ()

/-- Modelled from the spec: the extension rule exactly as §4.1 words it —
the portion of the filename after its last dot, lowercased and prefixed
with a dot, tested for membership in the lowercased configured list; no
dot at all means no extension and rejection. -/
def extension_rule_from_spec (filename : String) (extensions : List String) : Bool :=
  match lastIndexOf '.' filename.toList with
  | none => false
  | some i =>
    extensions.any (fun e =>
      lowerString e == "." ++ lowerString (String.mk (filename.toList.drop (i + 1))))

/-- An entry counted by the claim as a stat failure: a non-directory whose
metadata read failed. -/
def entry_stat_failed (e : DirEntry) : Bool :=
  !e.is_dir && (match e.metadata with | .error _ => true | .ok _ => false)

/-- An entry counted by the claim as a considered file: a non-directory
with readable metadata that passes all filters. -/
def entry_passes_filters (o : MatchOracle) (f : Filters) (e : DirEntry) : Bool :=
  !e.is_dir && (match e.metadata with
                | .ok m => matches_filters o e.filename m f
                | .error _ => false)

/-- A concrete ruleset for evaluating the embedding: move `.txt` files from
`src` to `dst` without overwriting. -/
def sampleRuleset : Ruleset :=
  { id := "rs-1", name := "sample", enabled := true
    source_dir := "src", destination_dir := "dst"
    action := .move, overwrite := false
    filters := { extensions := some [".txt"], filename := none
                 created_at := none, modified_at := none } }

/-- Directory entries for the sample execution: one matching file and one
stat failure. -/
def sampleEntries : List DirEntry :=
  [ { filename := "a.txt", is_dir := false
      metadata := .ok { len := 3, created := none, modified := none } }
  , { filename := "broken.txt", is_dir := false
      metadata := .error { kind := .permissionDenied, msg := "denied" } } ]

/-- Oracle answering every external call of the sample execution: the
source exists, directories are creatable, the listing is `sampleEntries`,
no collisions, every rename succeeds, no cancellation. -/
def sampleEnv : ExecEnv :=
  { source_exists := true
    create_dir_all := fun _ => .ok ()
    read_dir := .ok sampleEntries
    oracle := { parse_rfc3339 := fun _ => none
                glob_matches := fun _ _ => none
                regex_is_match := fun _ _ => none }
    regex_compiles := fun _ => false
    captures := fun _ _ => none
    path_exists := fun _ _ => false
    transfer := fun _ => { rename_result := none, copy_result := .ok 3
                           failed_copy_dest := none, remove_dest_result := none
                           remove_src_result := none }
    fstate := fun _ => { src := some 3, dest := none }
    cancel := fun _ => false
    elapsed_secs := fun _ => 0
    now_ms := fun _ => 0 }

/-- A ruleset whose destination holds a template token while its filename
filter is a glob. -/
def sampleTemplateGlobRuleset : Ruleset :=
  { id := "", name := "t", enabled := true
    source_dir := "s", destination_dir := String.mk ['d', '/', '{', 'x', '}']
    action := .move, overwrite := false
    filters := { extensions := none
                 filename := some { pattern := "*.zip", match_type := .glob }
                 created_at := none, modified_at := none } }

/-- Total number of per-file outcome records of an execution result. -/
def ExecutionResult.outcome_count (r : ExecutionResult) : Nat :=
  r.succeeded.length + r.skipped.length + r.errors.length

/-- Total number of per-file outcome records in a loop state. -/
def LoopState.outcome_count (st : LoopState) : Nat :=
  st.succeeded.length + st.skipped.length + st.errors.length

theorem outcome_pushSkip (st : LoopState) (p : PendingFile) (d : Option String)
    (r : String) : (st.pushSkip p d r).outcome_count = st.outcome_count + 1 := by
  simp [LoopState.pushSkip, LoopState.outcome_count]
  omega

theorem outcome_pushErr (st : LoopState) (p : PendingFile) (d : Option String)
    (r : String) : (st.pushErr p d r).outcome_count = st.outcome_count + 1 := by
  simp [LoopState.pushErr, LoopState.outcome_count]
  omega

theorem outcome_pushSucc (st : LoopState) (p : PendingFile) (d : String) :
    (st.pushSucc p d).outcome_count = st.outcome_count + 1 := by
  simp [LoopState.pushSucc, LoopState.outcome_count]
  omega

theorem outcome_stepTransfer (rs : Ruleset) (env : ExecEnv) (i : Nat)
    (p : PendingFile) (st : LoopState) (d : String) :
    (stepTransfer rs env i p st d).outcome_count = st.outcome_count + 1 := by
  unfold stepTransfer
  dsimp only
  split
  · exact outcome_pushSkip ..
  · split
    · exact outcome_pushSucc ..
    · exact outcome_pushErr ..

theorem outcome_stepEnsureDir (rs : Ruleset) (env : ExecEnv) (ut : Bool) (i : Nat)
    (p : PendingFile) (st : LoopState) (d : String) :
    (stepEnsureDir rs env ut i p st d).outcome_count = st.outcome_count + 1 := by
  unfold stepEnsureDir
  split
  · split
    · exact outcome_pushErr ..
    · rw [outcome_stepTransfer]
      rfl
  · exact outcome_stepTransfer ..

theorem outcome_processOne (rs : Ruleset) (env : ExecEnv) (ut rc : Bool) (i : Nat)
    (p : PendingFile) (st : LoopState) :
    (processOne rs env ut rc i p st).outcome_count = st.outcome_count + 1 := by
  unfold processOne
  dsimp only
  split
  · split
    · exact outcome_pushSkip ..
    · exact outcome_stepEnsureDir ..
  · exact outcome_stepEnsureDir ..

theorem outcome_emitProgress (env : ExecEnv) (total i : Nat) (p : PendingFile)
    (st : LoopState) :
    (emitProgress env total i p st).outcome_count = st.outcome_count := by
  unfold emitProgress
  dsimp only
  split <;> rfl

theorem outcome_processLoop (rs : Ruleset) (env : ExecEnv) (ut rc : Bool)
    (total : Nat) :
    ∀ (l : List PendingFile) (i : Nat) (st : LoopState),
      (processLoop rs env ut rc total l i st).outcome_count =
        st.outcome_count + l.length := by
  intro l
  induction l with
  | nil => intro i st; simp [processLoop]
  | cons p rest ih =>
    intro i st
    unfold processLoop
    dsimp only
    have h2 : (processOne rs env ut rc i p (emitProgress env total i p st)).outcome_count
        = st.outcome_count + 1 := by
      rw [outcome_processOne, outcome_emitProgress]
    split
    · simp only [LoopState.outcome_count, List.length_append, List.length_map] at h2 ⊢
      simp only [List.length_cons]
      omega
    · rw [ih, h2]
      simp only [List.length_cons]
      omega

theorem enumerate_files_lengths (o : MatchOracle) (src : String) (f : Filters) :
    ∀ es : List DirEntry,
      (enumerate_files o src f es).1.length = es.countP entry_stat_failed ∧
      (enumerate_files o src f es).2.length = es.countP (entry_passes_filters o f) := by
  intro es
  induction es with
  | nil => simp [enumerate_files]
  | cons e es ih =>
    unfold enumerate_files
    dsimp only
    rw [List.countP_cons, List.countP_cons]
    cases hd : e.is_dir with
    | true => simp [hd, entry_stat_failed, entry_passes_filters, ih]
    | false =>
      cases hm : e.metadata with
      | error err => simp [hd, hm, entry_stat_failed, entry_passes_filters, ih]
      | ok m =>
        cases hf : matches_filters o e.filename m f with
        | true => simp [hd, hm, hf, entry_stat_failed, entry_passes_filters, ih]
        | false => simp [hd, hm, hf, entry_stat_failed, entry_passes_filters, ih]

theorem determine_status_spec (s e : List FileResult) :
    (determine_status s e = .Completed ↔ e = []) ∧
    (determine_status s e = .Failed ↔ e ≠ [] ∧ s = []) ∧
    (determine_status s e = .PartialFailure ↔ e ≠ [] ∧ s ≠ []) := by
  unfold determine_status
  rcases e with _ | ⟨x, e⟩ <;> rcases s with _ | ⟨y, s⟩ <;> simp

/-- C1: whenever the pre-flight checks pass (source exists, the non-template
destination is creatable, the listing opens), the execution result has
exactly one outcome record — succeeded, skipped or errored — per stat
failure and per filter-passing file, whether or not cancellation occurred:
|succeeded| + |skipped| + |errors| = stat-failures + filter-passing files. -/
theorem C1_outcome_partition (rs : Ruleset) (env : ExecEnv) (entries : List DirEntry)
    (hsrc : env.source_exists = true)
    (hdst : has_template_vars rs.destination_dir = false →
      env.create_dir_all rs.destination_dir = .ok ())
    (hrd : env.read_dir = .ok entries) :
    (execute_ruleset rs env).result.succeeded.length +
      (execute_ruleset rs env).result.skipped.length +
      (execute_ruleset rs env).result.errors.length =
    entries.countP entry_stat_failed +
      entries.countP (entry_passes_filters env.oracle rs.filters) := by
  have hpf : preflight_dest rs env = .ok () := by
    unfold preflight_dest
    cases h : has_template_vars rs.destination_dir with
    | true => simp
    | false => simpa using hdst h
  unfold execute_ruleset
  rw [hsrc, hpf, hrd]
  simp only [Bool.true_eq_false, if_false]
  have hloop := outcome_processLoop rs env
    (has_template_vars rs.destination_dir)
    ((has_template_vars rs.destination_dir) &&
      (match rs.filters.filename with
       | some ff => env.regex_compiles ff.pattern
       | none => false))
    (enumerate_files env.oracle rs.source_dir rs.filters entries).2.length
    (enumerate_files env.oracle rs.source_dir rs.filters entries).2 0
    { succeeded := [], skipped := [],
      errors := (enumerate_files env.oracle rs.source_dir rs.filters entries).1
      bytes_transferred := 0, last_progress_emit := none
      created_dirs := [], progress := [] }
  have henum := enumerate_files_lengths env.oracle rs.source_dir rs.filters entries
  simp only [LoopState.outcome_count, List.length_nil] at hloop
  omega

/-- C2: for every execution result, including pre-flight failures, the
status is Completed iff `errors` is empty, Failed iff `errors` is non-empty
and `succeeded` is empty, and PartialFailure iff both are non-empty; the
`skipped` list plays no role. -/
theorem C2_status_rule (rs : Ruleset) (env : ExecEnv) :
    ((execute_ruleset rs env).result.status = .Completed ↔
      (execute_ruleset rs env).result.errors = []) ∧
    ((execute_ruleset rs env).result.status = .Failed ↔
      (execute_ruleset rs env).result.errors ≠ [] ∧
      (execute_ruleset rs env).result.succeeded = []) ∧
    ((execute_ruleset rs env).result.status = .PartialFailure ↔
      (execute_ruleset rs env).result.errors ≠ [] ∧
      (execute_ruleset rs env).result.succeeded ≠ []) := by
  unfold execute_ruleset
  split
  · simp [preflight_failure]
  · split
    · simp [preflight_failure]
    · split
      · simp [preflight_failure]
      · dsimp only
        exact determine_status_spec _ _

/-- C3: `move_file` first attempts the rename (a successful rename moves the
file and attempts no copy); only a cross-device rename error runs the
copy-and-remove fallback; every other rename error — NotFound included — is
returned unchanged, no copy is attempted and the file state (in particular
the absence of a file at `dest`) is untouched. -/
theorem C3_move_file_fallback_only_cross_device :
    (∀ (t : TransferEnv) (st : FileState) (size : Nat),
      t.rename_result = none →
      move_file t st size = (.ok (), { src := none, dest := st.src }, false)) ∧
    (∀ (t : TransferEnv) (st : FileState) (size : Nat) (e : IOError),
      t.rename_result = some e → e.kind ≠ IOErrorKind.crossesDevices →
      move_file t st size = (.error e, st, false)) ∧
    (∀ (t : TransferEnv) (st : FileState) (size : Nat) (e : IOError),
      t.rename_result = some e → e.kind = IOErrorKind.crossesDevices →
      (move_file t st size).2.2 = true) := by
  refine ⟨?_, ?_, ?_⟩
  · intro t st size h
    unfold move_file
    rw [h]
  · intro t st size e h hk
    unfold move_file
    rw [h]
    simp [is_cross_device_error, hk]
  · intro t st size e h hk
    unfold move_file
    rw [h]
    simp only [is_cross_device_error, hk, beq_self_eq_true, if_true]
    split
    · rfl
    · split <;> rfl

/-- C3 witness: a NotFound rename error propagates unchanged, no copy runs
and the destination stays absent. -/
theorem C3_witness :
    move_file
      { rename_result := some { kind := .notFound, msg := "No such file" }
        copy_result := .ok 5, failed_copy_dest := none
        remove_dest_result := none, remove_src_result := none }
      { src := some 5, dest := none } 5
    = (.error { kind := .notFound, msg := "No such file" },
       { src := some 5, dest := none }, false) :=
  C3_move_file_fallback_only_cross_device.2.1 _ _ _ _ rfl (by decide)

/-- C4 counterexample: a failed platform copy that leaves a 1-byte partial
file whose best-effort removal itself fails returns the copy error with the
partial file still present at `dest` — the claimed unconditional cleanup
fails. -/
theorem C4_counterexample :
    (copy_and_verify
      { rename_result := none
        copy_result := .error { kind := .other, msg := "io" }
        failed_copy_dest := some 1
        remove_dest_result := some { kind := .permissionDenied, msg := "busy" }
        remove_src_result := none }
      { src := some 4, dest := none } 4).1 = .error { kind := .other, msg := "io" } ∧
    (copy_and_verify
      { rename_result := none
        copy_result := .error { kind := .other, msg := "io" }
        failed_copy_dest := some 1
        remove_dest_result := some { kind := .permissionDenied, msg := "busy" }
        remove_src_result := none }
      { src := some 4, dest := none } 4).2.dest = some 1 :=
  ⟨rfl, rfl⟩

/-- C4 amended: `copy_and_verify` errors whenever the platform copy fails
or the byte count differs from the expected size (then with the
incomplete-copy error), and on both failure paths it attempts a best-effort
removal of `dest` before returning: the destination afterwards holds
nothing when that removal goes through, and otherwise whatever the failed
copy left; in particular, whenever the removal call succeeds, no file
exists at `dest`. -/
theorem C4_copy_and_verify_cleanup :
    (∀ (t : TransferEnv) (st : FileState) (expected : Nat) (e : IOError),
      t.copy_result = .error e →
      (copy_and_verify t st expected).1 = .error e ∧
      (copy_and_verify t st expected).2.src = st.src ∧
      (copy_and_verify t st expected).2.dest =
        (match t.remove_dest_result with
         | none => none
         | some _ => t.failed_copy_dest)) ∧
    (∀ (t : TransferEnv) (st : FileState) (expected n : Nat),
      t.copy_result = .ok n → n ≠ expected →
      (copy_and_verify t st expected).1 = .error (incomplete_copy_error expected n) ∧
      (copy_and_verify t st expected).2.src = st.src ∧
      (copy_and_verify t st expected).2.dest =
        (match t.remove_dest_result with
         | none => none
         | some _ => some n)) ∧
    (∀ (t : TransferEnv) (st : FileState) (expected : Nat) (e : IOError),
      (copy_and_verify t st expected).1 = .error e →
      t.remove_dest_result = none →
      (copy_and_verify t st expected).2.dest = none) := by
  refine ⟨?_, ?_, ?_⟩
  · intro t st expected e h
    unfold copy_and_verify platform_copy remove_dest
    rw [h]
    cases t.remove_dest_result with
    | none => exact ⟨rfl, rfl, rfl⟩
    | some e2 => exact ⟨rfl, rfl, rfl⟩
  · intro t st expected n h hne
    unfold copy_and_verify platform_copy remove_dest
    rw [h]
    dsimp only
    rw [if_pos hne]
    cases t.remove_dest_result with
    | none => exact ⟨rfl, rfl, rfl⟩
    | some e2 => exact ⟨rfl, rfl, rfl⟩
  · intro t st expected e herr hrem
    unfold copy_and_verify platform_copy remove_dest at herr ⊢
    rw [hrem]
    cases hc : t.copy_result with
    | error e2 => rfl
    | ok n =>
      rw [hc] at herr
      dsimp only at herr ⊢
      by_cases hne : n ≠ expected
      · rw [if_pos hne]
      · rw [if_neg hne] at herr
        exact Except.noConfusion herr

/-- C4 witness: a failing platform copy whose removal goes through, and a
short copy whose removal goes through, both error and leave no destination
file. -/
theorem C4_witness :
    ((copy_and_verify
      { rename_result := none, copy_result := .error { kind := .permissionDenied, msg := "denied" }
        failed_copy_dest := some 1, remove_dest_result := none, remove_src_result := none }
      { src := some 4, dest := none } 4).1
        = .error { kind := .permissionDenied, msg := "denied" } ∧
     (copy_and_verify
      { rename_result := none, copy_result := .error { kind := .permissionDenied, msg := "denied" }
        failed_copy_dest := some 1, remove_dest_result := none, remove_src_result := none }
      { src := some 4, dest := none } 4).2.src = some 4 ∧
     (copy_and_verify
      { rename_result := none, copy_result := .error { kind := .permissionDenied, msg := "denied" }
        failed_copy_dest := some 1, remove_dest_result := none, remove_src_result := none }
      { src := some 4, dest := none } 4).2.dest = none) ∧
    (copy_and_verify
      { rename_result := none, copy_result := .ok 3
        failed_copy_dest := none, remove_dest_result := none, remove_src_result := none }
      { src := some 4, dest := none } 4).1 = .error (incomplete_copy_error 4 3) ∧
    (copy_and_verify
      { rename_result := none, copy_result := .ok 3
        failed_copy_dest := none, remove_dest_result := none, remove_src_result := none }
      { src := some 4, dest := none } 4).2.dest = none := by
  refine ⟨⟨?_, ?_, ?_⟩, ?_, ?_⟩
  · exact (C4_copy_and_verify_cleanup.1 _ _ _ _ rfl).1
  · exact (C4_copy_and_verify_cleanup.1 _ _ _ _ rfl).2.1
  · exact (C4_copy_and_verify_cleanup.1 _ _ _ _ rfl).2.2
  · exact (C4_copy_and_verify_cleanup.2.1 _ _ _ _ rfl (by decide)).1
  · exact C4_copy_and_verify_cleanup.2.2 _ _ _ _
      (C4_copy_and_verify_cleanup.2.1 _ _ _ _ rfl (by decide)).1 rfl

/-- C5: the payload commands.rs emits on the execution-progress channel
carries only the two fields ruleset_name and filename; current, total and
bytes_per_second are absent, contradicting the claimed five-field event. -/
theorem C5_payload_fields :
    execution_progress_payload_fields = ["ruleset_name", "filename"] ∧
    ¬ spec_progress_event_fields ⊆ execution_progress_payload_fields ∧
    "current" ∉ execution_progress_payload_fields ∧
    "total" ∉ execution_progress_payload_fields ∧
    "bytes_per_second" ∉ execution_progress_payload_fields := by
  refine ⟨rfl, ?_, by decide, by decide, by decide⟩
  intro h
  have : "current" ∈ execution_progress_payload_fields :=
    h (by decide)
  simp_all [execution_progress_payload_fields]

/-- C9: `undo_file_move` errors when the destination is gone, errors when
the destination exists but the source also exists (in that order, each with
its message), and otherwise — parent creation succeeding and the destination
stat returning `n` — performs `move_file(destination, source, n)` with
classified errors. -/
theorem C9_undo_preconditions :
    (∀ env : UndoEnv, env.dest_exists = false →
      undo_file_move env = .error "File no longer exists at destination") ∧
    (∀ env : UndoEnv, env.dest_exists = true → env.src_exists = true →
      undo_file_move env = .error "File already exists at original location") ∧
    (∀ (env : UndoEnv) (n : Nat),
      env.dest_exists = true → env.src_exists = false →
      (match env.source_parent with
       | some parent => env.create_dir_all parent = .ok ()
       | none => True) →
      env.dest_metadata = some n →
      undo_file_move env =
        (match (move_file env.transfer env.fstate n).1 with
         | .ok _ => .ok ()
         | .error e => .error (classify_io_error e))) := by
  refine ⟨?_, ?_, ?_⟩
  · intro env h
    unfold undo_file_move
    rw [h]
    rfl
  · intro env hd hs
    unfold undo_file_move
    rw [hd, hs]
    rfl
  · intro env n hd hs hpar hm
    unfold undo_file_move
    rw [hd, hs, hm]
    cases hp : env.source_parent with
    | none => rfl
    | some parent =>
      rw [hp] at hpar
      dsimp only at hpar
      dsimp only
      rw [hpar]
      rfl

/-- C9 witness: with destination present, source absent, parent creation
succeeding and a successful rename back, the undo succeeds. -/
theorem C9_witness :
    undo_file_move
      { dest_exists := true, src_exists := false, source_parent := some "dl"
        create_dir_all := fun _ => .ok (), dest_metadata := some 7
        transfer := { rename_result := none, copy_result := .ok 7
                      failed_copy_dest := none, remove_dest_result := none
                      remove_src_result := none }
        fstate := { src := some 7, dest := none } } = .ok () := by
  have h := C9_undo_preconditions.2.2
    { dest_exists := true, src_exists := false, source_parent := some "dl"
      create_dir_all := fun _ => .ok (), dest_metadata := some 7
      transfer := { rename_result := none, copy_result := .ok 7
                    failed_copy_dest := none, remove_dest_result := none
                    remove_src_result := none }
      fstate := { src := some 7, dest := none } } 7 rfl rfl rfl rfl
  exact h.trans rfl

/-- C1 witness: the sample execution over one filter-passing file plus one
stat failure partitions its outcomes accordingly. -/
theorem C1_witness :
    (execute_ruleset sampleRuleset sampleEnv).result.succeeded.length +
      (execute_ruleset sampleRuleset sampleEnv).result.skipped.length +
      (execute_ruleset sampleRuleset sampleEnv).result.errors.length =
    sampleEntries.countP entry_stat_failed +
      sampleEntries.countP (entry_passes_filters sampleEnv.oracle sampleRuleset.filters) :=
  C1_outcome_partition sampleRuleset sampleEnv sampleEntries rfl (fun _ => rfl) rfl

theorem concatStrings_cons (s : String) (rest : List String) :
    concatStrings (s :: rest) = s ++ concatStrings rest := rfl

theorem varNamesOf_cons_lit (cs : List Char) (ts : List TemplateTok) :
    varNamesOf (.lit cs :: ts) = varNamesOf ts := rfl

theorem varNamesOf_cons_var (nm : String) (ts : List TemplateTok) :
    varNamesOf (.var nm :: ts) = nm :: varNamesOf ts := rfl

theorem capture_error_eq_none_iff (c : String → Option String) (nm : String) :
    capture_error c nm = none ↔ ¬(c nm = none ∨ c nm = some "") := by
  unfold capture_error
  cases h : c nm with
  | none => simp
  | some v => by_cases hv : v = "" <;> simp [hv]

theorem firstTemplateError_eq_none_iff (c : String → Option String) :
    ∀ ts : List TemplateTok,
      firstTemplateError c ts = none ↔
        ∀ nm ∈ varNamesOf ts, capture_error c nm = none := by
  intro ts
  induction ts with
  | nil => simp [firstTemplateError, varNamesOf]
  | cons t ts ih =>
    cases t with
    | lit cs => simpa [firstTemplateError, varNamesOf] using ih
    | var nm =>
      cases hce : capture_error c nm with
      | some e => simp [firstTemplateError, varNamesOf, hce]
      | none => simp [firstTemplateError, varNamesOf, hce, ih]

theorem firstTemplateError_eq_some (c : String → Option String) :
    ∀ (ts : List TemplateTok) (msg : String),
      firstTemplateError c ts = some msg →
      ∃ pre nm post, varNamesOf ts = pre ++ nm :: post ∧
        (∀ m ∈ pre, capture_error c m = none) ∧
        capture_error c nm = some msg := by
  intro ts
  induction ts with
  | nil => intro msg h; simp [firstTemplateError] at h
  | cons t ts ih =>
    intro msg h
    cases t with
    | lit cs =>
      simp only [firstTemplateError] at h
      obtain ⟨pre, nm, post, h1, h2, h3⟩ := ih msg h
      exact ⟨pre, nm, post, by rw [varNamesOf_cons_lit]; exact h1, h2, h3⟩
    | var nm =>
      simp only [firstTemplateError] at h
      cases hce : capture_error c nm with
      | some e =>
        rw [hce] at h
        dsimp only at h
        injection h with h
        subst h
        exact ⟨[], nm, varNamesOf ts, by rw [varNamesOf_cons_var]; rfl, by simp, hce⟩
      | none =>
        rw [hce] at h
        dsimp only at h
        obtain ⟨pre, nm2, post, h1, h2, h3⟩ := ih msg h
        refine ⟨nm :: pre, nm2, post, ?_, ?_, h3⟩
        · rw [varNamesOf_cons_var, h1]
          rfl
        · intro m hm
          rcases List.mem_cons.mp hm with rfl | hm2
          · exact hce
          · exact h2 m hm2

/-- C7: resolution errors exactly when some referenced variable is absent
from the capture map or empty; the reported reason is the one produced by
the leftmost failing variable of the left-to-right scan; a successful
resolution is the token-wise substitution with sanitized values. -/
theorem C7_resolve_template (template : String) (captures : String → Option String) :
    ((∃ msg, resolve_destination_template template captures = .error msg) ↔
      ∃ nm ∈ templateVarNames template, captures nm = none ∨ captures nm = some "") ∧
    (∀ msg, resolve_destination_template template captures = .error msg →
      ∃ pre nm post, templateVarNames template = pre ++ nm :: post ∧
        (∀ m ∈ pre, ¬(captures m = none ∨ captures m = some "")) ∧
        capture_error captures nm = some msg) ∧
    (∀ s, resolve_destination_template template captures = .ok s →
      s = concatStrings ((scanTemplate template.toList).map (substTok captures))) := by
  unfold resolve_destination_template templateVarNames
  dsimp only
  generalize scanTemplate template.toList = ts
  cases hfe : firstTemplateError captures ts with
  | none =>
    have hall := (firstTemplateError_eq_none_iff captures ts).mp hfe
    refine ⟨?_, ?_, ?_⟩
    · constructor
      · rintro ⟨msg, hmsg⟩
        exact Except.noConfusion hmsg
      · rintro ⟨nm, hmem, hbad⟩
        exact absurd hbad ((capture_error_eq_none_iff captures nm).mp (hall nm hmem))
    · intro msg hmsg
      exact Except.noConfusion hmsg
    · intro s hs
      injection hs with hs
      exact hs.symm
  | some e =>
    refine ⟨?_, ?_, ?_⟩
    · constructor
      · rintro ⟨msg, -⟩
        obtain ⟨pre, nm, post, h1, h2, h3⟩ := firstTemplateError_eq_some captures ts e hfe
        refine ⟨nm, by simp [h1], ?_⟩
        by_contra hgood
        rw [← capture_error_eq_none_iff captures nm] at hgood
        rw [hgood] at h3
        exact Option.noConfusion h3
      · intro _
        exact ⟨e, rfl⟩
    · intro msg hmsg
      injection hmsg with hmsg
      subst hmsg
      obtain ⟨pre, nm, post, h1, h2, h3⟩ := firstTemplateError_eq_some captures ts e hfe
      refine ⟨pre, nm, post, h1, ?_, h3⟩
      intro m hm
      exact (capture_error_eq_none_iff captures m).mp (h2 m hm)
    · intro s hs
      exact Except.noConfusion hs

/-- C7 witness: a template referencing a variable missing from the capture
map resolves to an error. -/
theorem C7_witness :
    ∃ msg, resolve_destination_template (String.mk ['{', 'v', '}'])
      (fun _ => none) = .error msg :=
  (C7_resolve_template _ _).1.mpr ⟨"v", by decide, Or.inl rfl⟩

/-- C6 counterexample: for the dotfile `.gitignore` and the configured list
[".gitignore"], the code rejects — Rust Path::extension is None for a name
whose only dot leads — while the claimed after-the-last-dot rule accepts. -/
theorem C6_counterexample :
    match_extensions ".gitignore" [".gitignore"] = false ∧
    extension_rule_from_spec ".gitignore" [".gitignore"] = true := by
  constructor <;> decide

/-- C6 amended: the extension sub-filter accepts exactly when the filename
is not ".." and has a last dot at a positive index, and "." plus the
lowercased portion after that dot equals some lowercased configured entry;
filenames with no dot — and dotfiles, whose only dot is their first
character — are rejected. -/
theorem C6_extension_filter (filename : String) (exts : List String) :
    match_extensions filename exts = true ↔
      filename ≠ ".." ∧
      ∃ i, lastIndexOf '.' filename.toList = some (i + 1) ∧
        exts.any (fun e =>
          lowerString e == "." ++ lowerString (String.mk (filename.toList.drop (i + 2)))) = true := by
  unfold match_extensions extension
  by_cases hdd : filename = ".."
  · simp [hdd]
  · simp only [hdd, if_false, ne_eq, not_false_eq_true, true_and]
    cases h : lastIndexOf '.' filename.toList with
    | none => simp
    | some k =>
      cases k with
      | zero => simp
      | succ i =>
        simp only [Option.map_some]
        constructor
        · intro ha
          exact ⟨i, rfl, ha⟩
        · rintro ⟨j, hj, ha⟩
          obtain rfl : i = j := by
            injection hj with hj
            omega
          exact ha

/-- C8: validation rejects every ruleset whose destination contains a
template token (in the `has_template_vars` sense) without a regex filename
filter; without template tokens, a ruleset passing the remaining checks
validates with no filename filter required. -/
theorem C8_template_regex_coupling :
    (∀ (parse : String → Option Int) (rs : Ruleset),
      has_template_vars rs.destination_dir = true →
      filename_filter_is_regex rs.filters = false →
      ∃ msg, rs.validate parse = .error msg) ∧
    (∀ (parse : String → Option Int) (rs : Ruleset),
      has_template_vars rs.destination_dir = false →
      trim_is_empty rs.name = false →
      trim_is_empty rs.source_dir = false →
      trim_is_empty rs.destination_dir = false →
      rs.filters.has_at_least_one = true →
      validate_created_at parse rs.filters = .ok () →
      validate_modified_at parse rs.filters = .ok () →
      rs.validate parse = .ok ()) := by
  constructor
  · intro parse rs ht hr
    unfold Ruleset.validate
    repeat' split
    any_goals exact ⟨_, rfl⟩
    all_goals simp_all
  · intro parse rs ht h1 h2 h3 h4 hc hm
    simp [Ruleset.validate, h1, h2, h3, h4, ht, hc, hm]

/-- C8 witness: a glob-filtered template destination is rejected; the plain
sample ruleset without filename filter validates. -/
theorem C8_witness :
    (∃ msg, sampleTemplateGlobRuleset.validate (fun _ => some 0) = .error msg) ∧
    sampleRuleset.validate (fun _ => some 0) = .ok () :=
  ⟨C8_template_regex_coupling.1 _ _ (by decide) (by decide),
   C8_template_regex_coupling.2 _ _ (by decide) (by decide) (by decide) (by decide)
     (by decide) rfl rfl⟩

theorem no_var_mem_of_varNamesOf_nil (ts : List TemplateTok)
    (h : varNamesOf ts = []) : ∀ nm, TemplateTok.var nm ∉ ts := by
  intro nm hmem
  have hv : nm ∈ varNamesOf ts :=
    List.mem_filterMap.mpr ⟨TemplateTok.var nm, hmem, rfl⟩
  rw [h] at hv
  simp at hv

theorem firstTemplateError_of_no_vars (c : String → Option String)
    (ts : List TemplateTok) (h : varNamesOf ts = []) :
    firstTemplateError c ts = none := by
  rw [firstTemplateError_eq_none_iff]
  intro nm hmem
  rw [h] at hmem
  simp at hmem

theorem scanTemplateFuel_no_vars_concat (c : String → Option String) :
    ∀ (fuel : Nat) (l : List Char), l.length ≤ fuel →
      (∀ nm, TemplateTok.var nm ∉ scanTemplateFuel fuel l) →
      concatStrings ((scanTemplateFuel fuel l).map (substTok c)) = String.mk l := by
  intro fuel
  induction fuel with
  | zero =>
    intro l hl _
    have hnil : l = [] := List.length_eq_zero.mp (Nat.le_zero.mp hl)
    subst hnil
    rfl
  | succ fuel ih =>
    intro l hl hnv
    cases l with
    | nil => rfl
    | cons ch cs =>
      rw [scanTemplateFuel] at hnv ⊢
      cases hm : matchVarAt (ch :: cs) with
      | some pr =>
        exfalso
        obtain ⟨nm, rest⟩ := pr
        rw [hm] at hnv
        exact hnv nm (List.mem_cons_self _ _)
      | none =>
        rw [hm] at hnv
        rw [List.map_cons, concatStrings_cons,
          ih cs (by simpa using Nat.le_of_succ_le_succ (by simpa using hl))
            (fun nm hmem => hnv nm (List.mem_cons_of_mem _ hmem))]
        rfl

theorem scanTemplate_no_vars_concat (c : String → Option String) (l : List Char)
    (hnv : ∀ nm, TemplateTok.var nm ∉ scanTemplate l) :
    concatStrings ((scanTemplate l).map (substTok c)) = String.mk l :=
  scanTemplateFuel_no_vars_concat c l.length l le_rfl hnv

/-- C10: a template none of whose brace tokens matches the variable regex —
in particular a bare brace pair, which has an empty name — resolves, for
every capture map, to the literal template with no error; yet
`has_template_vars` is true for any string containing an open brace later
followed by a close brace, so such a destination runs the engine in
template mode and resolves to the template string itself. -/
theorem C10_bare_brace_token :
    (∀ (template : String) (captures : String → Option String),
      templateVarNames template = [] →
      resolve_destination_template template captures = .ok template) ∧
    (∀ s t : List Char, has_template_vars (String.mk (s ++ '{' :: '}' :: t)) = true) ∧
    templateVarNames (String.mk ['{', '}']) = [] := by
  refine ⟨?_, ?_, by decide⟩
  · intro template captures h
    unfold templateVarNames at h
    unfold resolve_destination_template
    dsimp only
    rw [firstTemplateError_of_no_vars captures _ h]
    rw [scanTemplate_no_vars_concat captures _ (no_var_mem_of_varNamesOf_nil _ h)]
    rfl
  · intro s t
    unfold has_template_vars
    have hl : (String.mk (s ++ '{' :: '}' :: t)).toList = s ++ '{' :: '}' :: t := rfl
    rw [hl]
    induction s with
    | nil => simp [hasTemplateVarsGo]
    | cons a s ih =>
      rw [List.cons_append]
      simp only [hasTemplateVarsGo]
      by_cases ha : a = '{'
      · simp [ha, List.contains, List.elem_iff]
      · simpa [ha] using ih

/-- C10 witness: the bare brace pair resolves verbatim under the empty
capture map. -/
theorem C10_witness :
    resolve_destination_template (String.mk ['{', '}']) (fun _ => none) =
      .ok (String.mk ['{', '}']) :=
  C10_bare_brace_token.1 _ _ (by decide)

end Filo
